import Mathlib

/-!
Verification of the record/playback state machine of the libretro
audio-recording sample core.

The embedding follows src/audio/audio_recording/libretro-test.c (the named
variant of the repository). The per-tick update `retro_run` and its helpers
`handle_record_state` and `handle_playback_state` are translated directly;
host callbacks (microphone, audio sink, video sink, input) are modelled as
per-tick oracle inputs in `TickInput`. The `size_t` counters are modelled as
`Nat`; the C subtraction `recording_buffer_length - frames_recorded` is
guarded in the source by `MAX(0, ...)`, which `Nat` truncated subtraction
reproduces on the in-range states the theorems consider. The floating-point
comparison in the render routine (x / 320 <= counter / length, computed in
`double`) is modelled by the exact rational comparison; every theorem proved
about the render routine is independent of that choice. Where the unnamed
source variant (src/unnamed/part_000) differs in a way a claim depends on,
a separate definition modelling that variant is given and clearly named.
-/

namespace AudioRec

/-- State enum of the core, translated from `enum state` in libretro-test.c. -/
inductive State where
  | IDLE
  | ERROR
  | RECORDING
  | PLAYBACK
  | FINISHED_PLAYBACK
  deriving DecidableEq

/-- FPS constant from libretro-test.c. -/
def FPS : Nat := 60

/-- RECORDING_LENGTH constant (seconds of recording capacity). -/
def RECORDING_LENGTH : Nat := 5

/-- SCREEN_WIDTH constant. -/
def SCREEN_WIDTH : Nat := 320

/-- SCREEN_HEIGHT constant. -/
def SCREEN_HEIGHT : Nat := 240

/-- RGB565 color RED, from libretro-test.c. -/
def RED : Nat := 0x1f <<< 11

/-- RGB565 color GREEN. -/
def GREEN : Nat := 0x3f <<< 5

/-- RGB565 color BLUE. -/
def BLUE : Nat := 0x1f

/-- RGB565 color YELLOW. -/
def YELLOW : Nat := RED ||| GREEN

/-- Static configuration computed in `init`: the configured microphone rate
(read from the core option; the C code applies `atoi` with no validation,
so any natural number is admissible). -/
structure Config where
  micRate : Nat

/-- mic_samples_per_frame = mic_rate / FPS, from `init`. -/
def mic_samples_per_frame (cfg : Config) : Nat := cfg.micRate / FPS

/-- recording_buffer_length = mic_rate * RECORDING_LENGTH, from `init`. -/
def recording_buffer_length (cfg : Config) : Nat := cfg.micRate * RECORDING_LENGTH

/-- playback_buffer_length = mic_rate * RECORDING_LENGTH * 2 (stereo), from `init`. -/
def playback_buffer_length (cfg : Config) : Nat := cfg.micRate * RECORDING_LENGTH * 2

/-- Mutable globals of the core gathered into one record: the state enum,
the two audio buffers, the two session counters, the effective microphone
enable flag (tracking the `set_mic_state` calls), and the framebuffer. -/
structure Core where
  state : State
  recording_buffer : List Int
  playback_buffer : List Int
  frames_recorded : Nat
  samples_played : Nat
  mic_enabled : Bool
  frame_buf : List Nat

/-- Oracle for one `read_mic` call: `result n` is the return value of
`read_mic` when at most `n` samples are requested (negative on fault), and
`data j` is the j-th sample the microphone deposited in the destination. -/
structure MicInput where
  result : Nat → Int
  data : Nat → Int

/-- Host-side inputs of a single tick: the polled button, whether the
microphone handle and `set_mic_state` callback are non-null, the return
value of `set_mic_state(mic, true)`, the microphone oracle, the audio sink
(`audio_batch d n` is the value `audio_batch_cb` returns when offered the
sample list `d` of length-bound `n`), and whether `audio_batch_cb` is set. -/
structure TickInput where
  record_button : Bool
  mic_present : Bool
  set_mic_state_ok : Bool
  mic : MicInput
  audio_batch : List Int → Nat → Nat
  audio_batch_present : Bool

/-- Map a function over a list together with the running index, starting at
`i`. Used to model in-place writes into a C array. -/
def map_idx_from (g : Nat → α → α) : Nat → List α → List α
  | _, [] => []
  | i, a :: as => g i a :: map_idx_from g (i + 1) as

/-- Write `n` samples produced by `data` into `buf` starting at offset
`off`, leaving all other entries unchanged: the effect of the `read_mic`
call depositing into `recording_buffer + frames_recorded`. -/
def write_samples (buf : List Int) (off n : Nat) (data : Nat → Int) : List Int :=
  map_idx_from (fun i v => if off ≤ i ∧ i < off + n then data (i - off) else v) 0 buf

/-- Sample count requested from the microphone on a RECORDING tick:
MIN(frames_left, mic_samples_per_frame) with
frames_left = MAX(0, recording_buffer_length - frames_recorded). -/
def mic_request (cfg : Config) (c : Core) : Nat :=
  min (recording_buffer_length cfg - c.frames_recorded) (mic_samples_per_frame cfg)

/-- Stereo-duplication loop of `handle_record_state`: for each i below `m`,
set playback entries 2i and 2i+1 to the i-th recorded sample. -/
def stereo_fill (pb : List Int) (f : Nat → Int) : Nat → List Int
  | 0 => pb
  | m + 1 => ((stereo_fill pb f m).set (2 * m) (f m)).set (2 * m + 1) (f m)

/-- Translation of `handle_record_state` in libretro-test.c. -/
def handle_record_state (cfg : Config) (inp : TickInput) (c : Core) : Core :=
  let samples_read := inp.mic.result (mic_request cfg c)
  if samples_read < 0 then
    { c with mic_enabled := false, state := State.ERROR }
  else
    let n := samples_read.toNat
    let rec_buf := write_samples c.recording_buffer c.frames_recorded n inp.mic.data
    let fr := c.frames_recorded + n
    if inp.record_button = false ∨ recording_buffer_length cfg ≤ fr then
      let m := min fr (recording_buffer_length cfg)
      let pb := stereo_fill (List.replicate (playback_buffer_length cfg) 0)
          (fun i => rec_buf.getD i 0) m
      { state := State.PLAYBACK
        recording_buffer := rec_buf
        playback_buffer := pb
        frames_recorded := fr
        samples_played := 0
        mic_enabled := false
        frame_buf := c.frame_buf }
    else
      { c with recording_buffer := rec_buf, frames_recorded := fr }

/-- samples_left of `handle_playback_state`:
MIN(frames_recorded * 2, playback_buffer_length) - samples_played. -/
def playback_samples_left (cfg : Config) (c : Core) : Nat :=
  min (c.frames_recorded * 2) (playback_buffer_length cfg) - c.samples_played

/-- samples_to_play of `handle_playback_state`:
MIN(samples_left, mic_samples_per_frame). -/
def playback_samples_to_play (cfg : Config) (c : Core) : Nat :=
  min (playback_samples_left cfg c) (mic_samples_per_frame cfg)

/-- Samples the core hands to `audio_batch_cb` on a PLAYBACK tick: the
region of the playback buffer starting at offset samples_played, of length
samples_to_play. -/
def playback_submission (cfg : Config) (c : Core) : List Int :=
  (c.playback_buffer.drop c.samples_played).take (playback_samples_to_play cfg c)

/-- Translation of `handle_playback_state` in libretro-test.c. -/
def handle_playback_state (cfg : Config) (inp : TickInput) (c : Core) : Core :=
  let frames_written := inp.audio_batch (playback_submission cfg c)
      (playback_samples_to_play cfg c)
  let sp := c.samples_played + frames_written
  if playback_buffer_length cfg ≤ sp ∨ c.frames_recorded * 2 ≤ sp then
    { c with samples_played := sp, state := State.FINISHED_PLAYBACK }
  else
    { c with samples_played := sp }

/-- Comparison `screen_fraction <= some_ratio` of `draw_lines_to_buffer`,
i.e. x / SCREEN_WIDTH <= num / den, modelled by the exact rational
comparison x * den <= num * SCREEN_WIDTH. -/
def screen_le (x num den : Nat) : Bool := decide (x * den ≤ num * SCREEN_WIDTH)

/-- Translation of `draw_lines_to_buffer`: paint the recorded-progress row
(row 110, YELLOW) and the played-progress row (row 130, BLUE) onto `buf`. -/
def draw_lines_to_buffer (cfg : Config) (fr sp : Nat) (buf : List Nat) : List Nat :=
  map_idx_from (fun idx v =>
    if SCREEN_WIDTH * 110 ≤ idx ∧ idx < SCREEN_WIDTH * 111 ∧
        screen_le (idx - SCREEN_WIDTH * 110) fr (recording_buffer_length cfg) = true then
      YELLOW
    else if SCREEN_WIDTH * 130 ≤ idx ∧ idx < SCREEN_WIDTH * 131 ∧
        screen_le (idx - SCREEN_WIDTH * 130) sp (playback_buffer_length cfg) = true then
      BLUE
    else v) 0 buf

/-- Translation of `render`: memset the whole framebuffer to black, then
draw the two progress rows from the current counters. `old` is the previous
content of the static framebuffer; the memset zeroes every entry of it. -/
def render (cfg : Config) (fr sp : Nat) (old : List Nat) : List Nat :=
  draw_lines_to_buffer cfg fr sp (old.map fun _ => 0)

/-- Switch statement of `retro_run` in libretro-test.c: dispatch on the
current state and perform the per-state action and transition. -/
def tick_state (cfg : Config) (inp : TickInput) (c : Core) : Core :=
  match c.state with
  | State.IDLE =>
      if inp.mic_present && inp.record_button then
        let c0 := { c with
          frames_recorded := 0
          samples_played := 0
          recording_buffer := List.replicate (recording_buffer_length cfg) 0
          playback_buffer := List.replicate (playback_buffer_length cfg) 0 }
        if inp.set_mic_state_ok then
          { c0 with state := State.RECORDING, mic_enabled := true }
        else
          { c0 with state := State.ERROR, mic_enabled := false }
      else c
  | State.ERROR => { c with frames_recorded := 0, samples_played := 0 }
  | State.RECORDING =>
      if inp.audio_batch_present then handle_record_state cfg inp c else c
  | State.PLAYBACK =>
      if inp.audio_batch_present then handle_playback_state cfg inp c else c
  | State.FINISHED_PLAYBACK =>
      { c with samples_played := 0, frames_recorded := 0, state := State.IDLE }

/-- Translation of `retro_run` in libretro-test.c: run the switch statement,
then render exactly once from the post-transition counters. -/
def retro_run (cfg : Config) (inp : TickInput) (c : Core) : Core :=
  let c1 := tick_state cfg inp c
  { c1 with frame_buf := render cfg c1.frames_recorded c1.samples_played c1.frame_buf }

/-- Iterated ticks: `run_ticks cfg seq k c` applies `retro_run` k times,
feeding tick i the input `seq i`. -/
def run_ticks (cfg : Config) (seq : Nat → TickInput) : Nat → Core → Core
  | 0, c => c
  | k + 1, c => retro_run cfg (seq k) (run_ticks cfg seq k c)

/-- Modelled from the unnamed source variant (src/unnamed/part_000), whose
PLAYBACK branch computes frames_left =
MIN(MIN(samples_recorded * 2, 441000) - samples_played, SAMPLES_PER_FRAME * 2)
with SAMPLES_PER_FRAME = 44100 / 60 = 735 and a playback buffer of
441000 samples. This is the offered-count computation of that variant. -/
def part000_frames_left (fr sp : Nat) : Nat :=
  min (min (fr * 2) 441000 - sp) (735 * 2)

/-! Helper lemmas about the list operations of the embedding. -/

lemma getD_set_self (l : List Int) (i : Nat) (v : Int) (h : i < l.length) :
    (l.set i v).getD i 0 = v := by
  rw [List.getD_eq_getElem?_getD, List.getElem?_set_self h]
  rfl

lemma getD_set_ne (l : List Int) {i j : Nat} (v : Int) (h : i ≠ j) :
    (l.set i v).getD j 0 = l.getD j 0 := by
  rw [List.getD_eq_getElem?_getD, List.getElem?_set_ne h, ← List.getD_eq_getElem?_getD]

lemma length_stereo_fill (pb : List Int) (f : Nat → Int) (m : Nat) :
    (stereo_fill pb f m).length = pb.length := by
  induction m with
  | zero => rfl
  | succ k ih => simp [stereo_fill, List.length_set, ih]

lemma getD_stereo_fill_even (pb : List Int) (f : Nat → Int) (m i : Nat)
    (him : i < m) (hlen : 2 * m ≤ pb.length) :
    (stereo_fill pb f m).getD (2 * i) 0 = f i := by
  induction m with
  | zero => omega
  | succ k ih =>
    by_cases hik : i = k
    · subst hik
      rw [stereo_fill, getD_set_ne _ _ (by omega)]
      apply getD_set_self
      rw [length_stereo_fill]
      omega
    · rw [stereo_fill, getD_set_ne _ _ (by omega), getD_set_ne _ _ (by omega)]
      exact ih (by omega) (by omega)

lemma getD_stereo_fill_odd (pb : List Int) (f : Nat → Int) (m i : Nat)
    (him : i < m) (hlen : 2 * m ≤ pb.length) :
    (stereo_fill pb f m).getD (2 * i + 1) 0 = f i := by
  induction m with
  | zero => omega
  | succ k ih =>
    by_cases hik : i = k
    · subst hik
      rw [stereo_fill]
      apply getD_set_self
      simp only [List.length_set, length_stereo_fill]
      omega
    · rw [stereo_fill, getD_set_ne _ _ (by omega), getD_set_ne _ _ (by omega)]
      exact ih (by omega) (by omega)

lemma length_map_idx_from (g : Nat → α → α) (i : Nat) (l : List α) :
    (map_idx_from g i l).length = l.length := by
  induction l generalizing i with
  | nil => rfl
  | cons a t ih => simp [map_idx_from, ih]

lemma length_write_samples (buf : List Int) (off n : Nat) (data : Nat → Int) :
    (write_samples buf off n data).length = buf.length :=
  length_map_idx_from _ _ _

lemma map_const_zero (l : List Nat) :
    (l.map fun _ => (0 : Nat)) = List.replicate l.length 0 := by
  induction l with
  | nil => rfl
  | cons a t ih => simp [List.replicate_succ, ih]

lemma length_draw_lines (cfg : Config) (fr sp : Nat) (buf : List Nat) :
    (draw_lines_to_buffer cfg fr sp buf).length = buf.length :=
  length_map_idx_from _ _ _

lemma render_eq_replicate (cfg : Config) (fr sp : Nat) (old : List Nat) :
    render cfg fr sp old = draw_lines_to_buffer cfg fr sp (List.replicate old.length 0) := by
  rw [render, map_const_zero]

lemma length_render (cfg : Config) (fr sp : Nat) (old : List Nat) :
    (render cfg fr sp old).length = old.length := by
  rw [render_eq_replicate, length_draw_lines, List.length_replicate]

/-! Helper lemmas about single ticks. Since `retro_run` only updates the
framebuffer after the switch, every non-framebuffer field of its result is
the corresponding field of `tick_state`. -/

lemma retro_run_state (cfg : Config) (inp : TickInput) (c : Core) :
    (retro_run cfg inp c).state = (tick_state cfg inp c).state := rfl

lemma retro_run_fr (cfg : Config) (inp : TickInput) (c : Core) :
    (retro_run cfg inp c).frames_recorded = (tick_state cfg inp c).frames_recorded := rfl

lemma retro_run_sp (cfg : Config) (inp : TickInput) (c : Core) :
    (retro_run cfg inp c).samples_played = (tick_state cfg inp c).samples_played := rfl

lemma retro_run_rec_buf (cfg : Config) (inp : TickInput) (c : Core) :
    (retro_run cfg inp c).recording_buffer = (tick_state cfg inp c).recording_buffer := rfl

lemma retro_run_pb_buf (cfg : Config) (inp : TickInput) (c : Core) :
    (retro_run cfg inp c).playback_buffer = (tick_state cfg inp c).playback_buffer := rfl

lemma retro_run_mic (cfg : Config) (inp : TickInput) (c : Core) :
    (retro_run cfg inp c).mic_enabled = (tick_state cfg inp c).mic_enabled := rfl

lemma retro_run_fb (cfg : Config) (inp : TickInput) (c : Core) :
    (retro_run cfg inp c).frame_buf =
      render cfg (tick_state cfg inp c).frames_recorded
        (tick_state cfg inp c).samples_played (tick_state cfg inp c).frame_buf := rfl

lemma tick_state_RECORDING (cfg : Config) (inp : TickInput) (c : Core)
    (h : c.state = State.RECORDING) (hcb : inp.audio_batch_present = true) :
    tick_state cfg inp c = handle_record_state cfg inp c := by
  obtain ⟨st, rb, pb, fr, sp, me, fb⟩ := c
  simp only at h
  subst h
  simp [tick_state, hcb]

lemma tick_state_PLAYBACK (cfg : Config) (inp : TickInput) (c : Core)
    (h : c.state = State.PLAYBACK) (hcb : inp.audio_batch_present = true) :
    tick_state cfg inp c = handle_playback_state cfg inp c := by
  obtain ⟨st, rb, pb, fr, sp, me, fb⟩ := c
  simp only at h
  subst h
  simp [tick_state, hcb]

lemma tick_state_IDLE_skip (cfg : Config) (inp : TickInput) (c : Core)
    (h : c.state = State.IDLE) (hno : (inp.mic_present && inp.record_button) = false) :
    tick_state cfg inp c = c := by
  obtain ⟨st, rb, pb, fr, sp, me, fb⟩ := c
  simp only at h
  subst h
  simp [tick_state, hno]

/-- Characterization of `handle_playback_state` with the accepted count
named: definitional rearrangement of the translation. -/
lemma handle_playback_eq (cfg : Config) (inp : TickInput) (c : Core) :
    handle_playback_state cfg inp c =
      if playback_buffer_length cfg ≤ c.samples_played +
            inp.audio_batch (playback_submission cfg c) (playback_samples_to_play cfg c) ∨
          c.frames_recorded * 2 ≤ c.samples_played +
            inp.audio_batch (playback_submission cfg c) (playback_samples_to_play cfg c) then
        { c with
          samples_played := c.samples_played +
            inp.audio_batch (playback_submission cfg c) (playback_samples_to_play cfg c)
          state := State.FINISHED_PLAYBACK }
      else
        { c with
          samples_played := c.samples_played +
            inp.audio_batch (playback_submission cfg c) (playback_samples_to_play cfg c) } := rfl

lemma error_tick (cfg : Config) (inp : TickInput) (c : Core) (h : c.state = State.ERROR) :
    (retro_run cfg inp c).state = State.ERROR ∧
    (retro_run cfg inp c).frames_recorded = 0 ∧
    (retro_run cfg inp c).samples_played = 0 := by
  obtain ⟨st, rb, pb, fr, sp, me, fb⟩ := c
  simp only at h
  subst h
  simp [retro_run, tick_state]

lemma error_forever (cfg : Config) (seq : Nat → TickInput) (k : Nat) (c : Core)
    (h : c.state = State.ERROR) :
    (run_ticks cfg seq k c).state = State.ERROR := by
  induction k with
  | zero => exact h
  | succ j ih => exact (error_tick cfg (seq j) _ ih).1

lemma record_invariant (cfg : Config) (inp : TickInput) (c : Core)
    (hmic : inp.mic.result (mic_request cfg c) ≤ (mic_request cfg c : Int))
    (hF : c.frames_recorded ≤ recording_buffer_length cfg)
    (hS : c.samples_played ≤ playback_buffer_length cfg) :
    (handle_record_state cfg inp c).frames_recorded ≤ recording_buffer_length cfg ∧
    c.frames_recorded ≤ (handle_record_state cfg inp c).frames_recorded ∧
    (handle_record_state cfg inp c).samples_played ≤ playback_buffer_length cfg := by
  have hreq : mic_request cfg c ≤ recording_buffer_length cfg - c.frames_recorded :=
    Nat.min_le_left _ _
  unfold handle_record_state
  dsimp only
  split_ifs with h1 h2 <;> simp <;> omega

/-- Claim C1: on every PLAYBACK tick the played-counter advances by exactly
the value the audio sink returned for the samples offered that tick, and
(assuming the sink never accepts more than offered and the session
invariants hold) FINISHED_PLAYBACK is entered exactly when the cumulative
accepted total reaches 2 times frames_recorded. -/
theorem C1_playback_advance_by_accepted (cfg : Config) (inp : TickInput) (c : Core)
    (hstate : c.state = State.PLAYBACK)
    (hcb : inp.audio_batch_present = true)
    (hsink : ∀ d n, inp.audio_batch d n ≤ n)
    (hsp : c.samples_played ≤ c.frames_recorded * 2)
    (hfP : c.frames_recorded * 2 ≤ playback_buffer_length cfg) :
    (retro_run cfg inp c).samples_played =
      c.samples_played +
        inp.audio_batch (playback_submission cfg c) (playback_samples_to_play cfg c) ∧
    ((retro_run cfg inp c).state = State.FINISHED_PLAYBACK ↔
      (retro_run cfg inp c).samples_played = c.frames_recorded * 2) := by
  obtain ⟨st, rb, pb, fr, sp, me, fb⟩ := c
  simp only at hstate hsp hfP ⊢
  subst hstate
  have hr : inp.audio_batch
      (playback_submission cfg ⟨State.PLAYBACK, rb, pb, fr, sp, me, fb⟩)
      (playback_samples_to_play cfg ⟨State.PLAYBACK, rb, pb, fr, sp, me, fb⟩)
      ≤ playback_samples_to_play cfg ⟨State.PLAYBACK, rb, pb, fr, sp, me, fb⟩ := hsink _ _
  have hcnt : playback_samples_to_play cfg ⟨State.PLAYBACK, rb, pb, fr, sp, me, fb⟩
      ≤ min (fr * 2) (playback_buffer_length cfg) - sp := Nat.min_le_left _ _
  rw [Nat.min_eq_left hfP] at hcnt
  rw [retro_run_state, retro_run_sp, tick_state_PLAYBACK cfg inp _ rfl hcb,
    handle_playback_eq]
  split_ifs with hcond
  · refine ⟨rfl, ?_⟩
    dsimp only at hcond ⊢
    have heq : sp + inp.audio_batch
        (playback_submission cfg ⟨State.PLAYBACK, rb, pb, fr, sp, me, fb⟩)
        (playback_samples_to_play cfg ⟨State.PLAYBACK, rb, pb, fr, sp, me, fb⟩)
        = fr * 2 := by omega
    simp [heq]
  · refine ⟨rfl, ?_⟩
    dsimp only at hcond ⊢
    have hne : ¬ (sp + inp.audio_batch
        (playback_submission cfg ⟨State.PLAYBACK, rb, pb, fr, sp, me, fb⟩)
        (playback_samples_to_play cfg ⟨State.PLAYBACK, rb, pb, fr, sp, me, fb⟩)
        = fr * 2) := by omega
    simp [hne]

/-- Claim C3: assuming the microphone never returns more samples than
requested and the audio sink never accepts more samples than offered, the
invariants frames_recorded less-or-equal recording-buffer length and
samples_played less-or-equal playback-buffer length are preserved by every
tick, and on a RECORDING tick frames_recorded never decreases. -/
theorem C3_counter_invariants (cfg : Config) (inp : TickInput) (c : Core)
    (hmic : ∀ n : Nat, inp.mic.result n ≤ (n : Int))
    (hsink : ∀ d n, inp.audio_batch d n ≤ n)
    (hF : c.frames_recorded ≤ recording_buffer_length cfg)
    (hS : c.samples_played ≤ playback_buffer_length cfg) :
    (retro_run cfg inp c).frames_recorded ≤ recording_buffer_length cfg ∧
    (retro_run cfg inp c).samples_played ≤ playback_buffer_length cfg ∧
    (c.state = State.RECORDING →
      c.frames_recorded ≤ (retro_run cfg inp c).frames_recorded) := by
  simp only [retro_run_fr, retro_run_sp]
  obtain ⟨st, rb, pb, fr, sp, me, fb⟩ := c
  simp only at hF hS ⊢
  cases st with
  | IDLE =>
    refine ⟨?_, ?_, ?_⟩
    · simp only [tick_state]
      split_ifs <;> simp <;> omega
    · simp only [tick_state]
      split_ifs <;> simp <;> omega
    · intro habs
      exact absurd habs (by simp)
  | ERROR =>
    refine ⟨?_, ?_, ?_⟩
    · simp [tick_state]
    · simp [tick_state]
    · intro habs
      exact absurd habs (by simp)
  | RECORDING =>
    by_cases hcb : inp.audio_batch_present
    · have h := record_invariant cfg inp ⟨State.RECORDING, rb, pb, fr, sp, me, fb⟩
        (hmic _) hF hS
      rw [tick_state_RECORDING cfg inp _ rfl hcb]
      exact ⟨h.1, h.2.2, fun _ => h.2.1⟩
    · have hcb2 : inp.audio_batch_present = false := by
        simpa using hcb
      simp [tick_state, hcb2]
      omega
  | PLAYBACK =>
    by_cases hcb : inp.audio_batch_present
    · rw [tick_state_PLAYBACK cfg inp _ rfl hcb, handle_playback_eq]
      have hr : inp.audio_batch (playback_submission cfg ⟨State.PLAYBACK, rb, pb, fr, sp, me, fb⟩)
          (playback_samples_to_play cfg ⟨State.PLAYBACK, rb, pb, fr, sp, me, fb⟩)
          ≤ playback_samples_to_play cfg ⟨State.PLAYBACK, rb, pb, fr, sp, me, fb⟩ :=
        hsink _ _
      have hcnt : playback_samples_to_play cfg ⟨State.PLAYBACK, rb, pb, fr, sp, me, fb⟩
          ≤ min (fr * 2) (playback_buffer_length cfg) - sp := Nat.min_le_left _ _
      have hmin : min (fr * 2) (playback_buffer_length cfg) ≤ playback_buffer_length cfg :=
        Nat.min_le_right _ _
      split_ifs with hcond
      · refine ⟨hF, ?_, ?_⟩
        · simp only
          omega
        · intro habs
          exact absurd habs (by simp)
      · refine ⟨hF, ?_, ?_⟩
        · simp only
          omega
        · intro habs
          exact absurd habs (by simp)
    · have hcb2 : inp.audio_batch_present = false := by
        simpa using hcb
      simp [tick_state, hcb2]
      exact ⟨hF, hS⟩
  | FINISHED_PLAYBACK =>
    refine ⟨?_, ?_, ?_⟩
    · simp [tick_state]
    · simp [tick_state]
    · intro habs
      exact absurd habs (by simp)

/-- Claim C4: a negative microphone read on a RECORDING tick disables the
microphone and enters ERROR, and ERROR is sticky: every further tick,
whatever its inputs, stays in ERROR and zeroes both counters. -/
theorem C4_read_fault_sticky_error (cfg : Config) (inp : TickInput) (c : Core)
    (hstate : c.state = State.RECORDING)
    (hcb : inp.audio_batch_present = true)
    (hneg : inp.mic.result (mic_request cfg c) < 0) :
    (retro_run cfg inp c).state = State.ERROR ∧
    (retro_run cfg inp c).mic_enabled = false ∧
    (∀ (seq : Nat → TickInput) (k : Nat),
      (run_ticks cfg seq k (retro_run cfg inp c)).state = State.ERROR) ∧
    (∀ (seq : Nat → TickInput) (k : Nat),
      (run_ticks cfg seq (k + 1) (retro_run cfg inp c)).frames_recorded = 0 ∧
      (run_ticks cfg seq (k + 1) (retro_run cfg inp c)).samples_played = 0) := by
  have h1 : (retro_run cfg inp c).state = State.ERROR := by
    rw [retro_run_state, tick_state_RECORDING cfg inp c hstate hcb]
    unfold handle_record_state
    rw [if_pos hneg]
  have h2 : (retro_run cfg inp c).mic_enabled = false := by
    rw [retro_run_mic, tick_state_RECORDING cfg inp c hstate hcb]
    unfold handle_record_state
    rw [if_pos hneg]
  refine ⟨h1, h2, ?_, ?_⟩
  · intro seq k
    exact error_forever cfg seq k _ h1
  · intro seq k
    have hk := error_forever cfg seq k (retro_run cfg inp c) h1
    have ht := error_tick cfg (seq k) _ hk
    exact ⟨ht.2.1, ht.2.2⟩

/-- Claim C5: a PLAYBACK tick moves to FINISHED_PLAYBACK exactly when,
after the advance, samples_played has reached the playback-buffer length or
twice frames_recorded; otherwise the state stays PLAYBACK. -/
theorem C5_playback_exit_condition (cfg : Config) (inp : TickInput) (c : Core)
    (hstate : c.state = State.PLAYBACK)
    (hcb : inp.audio_batch_present = true) :
    ((retro_run cfg inp c).state = State.FINISHED_PLAYBACK ↔
      playback_buffer_length cfg ≤ (retro_run cfg inp c).samples_played ∨
      (retro_run cfg inp c).frames_recorded * 2 ≤ (retro_run cfg inp c).samples_played) ∧
    ((retro_run cfg inp c).state ≠ State.FINISHED_PLAYBACK →
      (retro_run cfg inp c).state = State.PLAYBACK) := by
  rw [retro_run_state, retro_run_sp, retro_run_fr, tick_state_PLAYBACK cfg inp c hstate hcb,
    handle_playback_eq]
  split_ifs with hcond
  · refine ⟨?_, ?_⟩
    · simpa using hcond
    · intro hne
      exact absurd rfl hne
  · refine ⟨?_, ?_⟩
    · simp only [hstate]
      constructor
      · intro habs
        exact absurd habs (by simp)
      · intro habs
        exact absurd habs (by simpa using hcond)
    · intro _
      exact hstate

/-- Claim C6: an IDLE tick with the record button held and the microphone
available resets both counters to zero; if enabling the microphone succeeds
the next state is RECORDING, and if it fails the next state is ERROR. -/
theorem C6_idle_start_recording (cfg : Config) (inp : TickInput) (c : Core)
    (hstate : c.state = State.IDLE)
    (hmic : inp.mic_present = true)
    (hbtn : inp.record_button = true) :
    (retro_run cfg inp c).frames_recorded = 0 ∧
    (retro_run cfg inp c).samples_played = 0 ∧
    (inp.set_mic_state_ok = true → (retro_run cfg inp c).state = State.RECORDING) ∧
    (inp.set_mic_state_ok = false → (retro_run cfg inp c).state = State.ERROR) := by
  obtain ⟨st, rb, pb, fr, sp, me, fb⟩ := c
  simp only at hstate
  subst hstate
  simp only [retro_run_fr, retro_run_sp, retro_run_state, tick_state, hmic, hbtn]
  by_cases hok : inp.set_mic_state_ok <;> simp [hok]

/-- Claim C10: an IDLE tick with the button not held or the microphone
unavailable leaves the state, both counters and both audio buffers (and the
mic flag) unchanged, and only rewrites the framebuffer, from the unchanged
counters. -/
theorem C10_idle_tick_frame_only (cfg : Config) (inp : TickInput) (c : Core)
    (hstate : c.state = State.IDLE)
    (h : inp.mic_present = false ∨ inp.record_button = false) :
    (retro_run cfg inp c).state = State.IDLE ∧
    (retro_run cfg inp c).frames_recorded = c.frames_recorded ∧
    (retro_run cfg inp c).samples_played = c.samples_played ∧
    (retro_run cfg inp c).recording_buffer = c.recording_buffer ∧
    (retro_run cfg inp c).playback_buffer = c.playback_buffer ∧
    (retro_run cfg inp c).mic_enabled = c.mic_enabled ∧
    (retro_run cfg inp c).frame_buf =
      render cfg c.frames_recorded c.samples_played c.frame_buf := by
  have hno : (inp.mic_present && inp.record_button) = false := by
    rcases h with h | h <;> simp [h]
  have ht := tick_state_IDLE_skip cfg inp c hstate hno
  refine ⟨?_, ?_, ?_, ?_, ?_, ?_, ?_⟩ <;>
    simp [retro_run_state, retro_run_fr, retro_run_sp, retro_run_rec_buf,
      retro_run_pb_buf, retro_run_mic, retro_run_fb, ht, hstate]

lemma pbl_eq_two_rbl (cfg : Config) :
    playback_buffer_length cfg = 2 * recording_buffer_length cfg := by
  unfold playback_buffer_length recording_buffer_length
  ring

/-- Claim C2: on the RECORDING tick that transitions to PLAYBACK (button
released or buffer filled), the playback buffer is rebuilt with every
recorded mono sample duplicated across the two stereo channels: for all
i below the final frames_recorded, entries 2i and 2i+1 of the playback
buffer both equal entry i of the recording buffer. -/
theorem C2_roundtrip_stereo_duplication (cfg : Config) (inp : TickInput) (c : Core)
    (hstate : c.state = State.RECORDING)
    (hcb : inp.audio_batch_present = true)
    (hpos : 0 ≤ inp.mic.result (mic_request cfg c))
    (hhon : inp.mic.result (mic_request cfg c) ≤ (mic_request cfg c : Int))
    (hF : c.frames_recorded ≤ recording_buffer_length cfg)
    (htr : inp.record_button = false ∨
      recording_buffer_length cfg ≤
        c.frames_recorded + (inp.mic.result (mic_request cfg c)).toNat) :
    (retro_run cfg inp c).state = State.PLAYBACK ∧
    (retro_run cfg inp c).samples_played = 0 ∧
    (retro_run cfg inp c).frames_recorded =
      c.frames_recorded + (inp.mic.result (mic_request cfg c)).toNat ∧
    (retro_run cfg inp c).frames_recorded ≤ recording_buffer_length cfg ∧
    (retro_run cfg inp c).playback_buffer.length = playback_buffer_length cfg ∧
    (∀ i < (retro_run cfg inp c).frames_recorded,
      (retro_run cfg inp c).playback_buffer.getD (2 * i) 0 =
        (retro_run cfg inp c).recording_buffer.getD i 0 ∧
      (retro_run cfg inp c).playback_buffer.getD (2 * i + 1) 0 =
        (retro_run cfg inp c).recording_buffer.getD i 0) := by
  have hreq : mic_request cfg c ≤ recording_buffer_length cfg - c.frames_recorded :=
    Nat.min_le_left _ _
  have hfr : c.frames_recorded + (inp.mic.result (mic_request cfg c)).toNat ≤
      recording_buffer_length cfg := by omega
  have hpl := pbl_eq_two_rbl cfg
  simp only [retro_run_state, retro_run_sp, retro_run_fr, retro_run_pb_buf, retro_run_rec_buf]
  rw [tick_state_RECORDING cfg inp c hstate hcb]
  unfold handle_record_state
  dsimp only
  rw [if_neg (not_lt.mpr hpos), if_pos htr]
  dsimp only
  have hm : min (c.frames_recorded + (inp.mic.result (mic_request cfg c)).toNat)
      (recording_buffer_length cfg) =
      c.frames_recorded + (inp.mic.result (mic_request cfg c)).toNat :=
    Nat.min_eq_left hfr
  rw [hm]
  refine ⟨rfl, rfl, rfl, hfr, ?_, ?_⟩
  · rw [length_stereo_fill, List.length_replicate]
  · intro i hi
    constructor
    · apply getD_stereo_fill_even
      · exact hi
      · rw [List.length_replicate]
        omega
    · apply getD_stereo_fill_odd
      · exact hi
      · rw [List.length_replicate]
        omega

/-- Claim C9: the render routine is a pure function of the two counters and
the configured buffer lengths; it clears the whole framebuffer before
drawing, so rendering twice with unchanged counters yields a bit-for-bit
identical framebuffer, and any two previous framebuffer contents of the
same size render identically. -/
theorem C9_render_pure (cfg : Config) (fr sp : Nat) (old : List Nat) :
    render cfg fr sp (render cfg fr sp old) = render cfg fr sp old ∧
    ∀ old2 : List Nat, old2.length = old.length →
      render cfg fr sp old2 = render cfg fr sp old := by
  have h1 : ∀ ol : List Nat, ol.length = old.length →
      render cfg fr sp ol = render cfg fr sp old := by
    intro ol hlen
    rw [render_eq_replicate, render_eq_replicate cfg fr sp old, hlen]
  exact ⟨h1 _ (length_render cfg fr sp old), h1⟩

/-- Claim C7 as stated fails on libretro-test.c: the PLAYBACK tick caps the
offered sample count at mic_samples_per_frame, not at twice it. Concretely,
with mic rate 44100 (so mic_samples_per_frame = 735) and a state with 2000
samples remaining, the code offers 735 samples, not min 2000 1470 = 1470 as
the claim requires. -/
theorem C7_counterexample :
    ¬ (playback_samples_to_play ⟨44100⟩ ⟨State.PLAYBACK, [], [], 1000, 0, false, []⟩ =
       min (playback_samples_left ⟨44100⟩ ⟨State.PLAYBACK, [], [], 1000, 0, false, []⟩)
         (2 * mic_samples_per_frame ⟨44100⟩)) := by
  decide

/-- Amended claim C7: on every PLAYBACK tick the controller offers the sink
samples taken from the playback buffer at offset samples_played, counted as
the minimum of the samples remaining in the session and
mic_samples_per_frame (not twice it), and advances samples_played by the
value the sink returns; the unnamed variant (part_000) instead caps its
offer at twice its per-frame sample count, 2 * 735. -/
theorem C7_playback_offer_cap (cfg : Config) (inp : TickInput) (c : Core)
    (hstate : c.state = State.PLAYBACK)
    (hcb : inp.audio_batch_present = true) :
    playback_samples_to_play cfg c =
      min (playback_samples_left cfg c) (mic_samples_per_frame cfg) ∧
    playback_submission cfg c =
      (c.playback_buffer.drop c.samples_played).take (playback_samples_to_play cfg c) ∧
    (retro_run cfg inp c).samples_played =
      c.samples_played +
        inp.audio_batch (playback_submission cfg c) (playback_samples_to_play cfg c) ∧
    (∀ fr sp : Nat, part000_frames_left fr sp =
      min (min (fr * 2) 441000 - sp) (2 * 735)) := by
  refine ⟨rfl, rfl, ?_, ?_⟩
  · rw [retro_run_sp, tick_state_PLAYBACK cfg inp c hstate hcb, handle_playback_eq]
    split_ifs <;> rfl
  · intro fr sp
    rw [part000_frames_left]

/-- Tick input of the C8 scenario: the polled button is as given, the
microphone is present and delivers every sample requested of it
(read_mic returns its request argument), and the audio callback is set. -/
def full_read_input (held : Bool) : TickInput :=
  { record_button := held
    mic_present := true
    set_mic_state_ok := true
    mic := { result := fun n => (n : Int), data := fun _ => 0 }
    audio_batch := fun _ _ => 0
    audio_batch_present := true }

/-- Constant input sequence holding the record button with a fully
delivering microphone. -/
def held_seq : Nat → TickInput := fun _ => full_read_input true

/-- Configuration of the C8 scenario: mic rate 44100. -/
def cfg44100 : Config := ⟨44100⟩

/-- Concrete core state at the start of a recording session. -/
def rec_start : Core := ⟨State.RECORDING, [], [], 0, 0, true, []⟩

lemma record_full_tick (cfg : Config) (b : Bool) (c : Core)
    (hstate : c.state = State.RECORDING)
    (hlt : c.frames_recorded + mic_samples_per_frame cfg < recording_buffer_length cfg)
    (hb : b = true) :
    (retro_run cfg (full_read_input b) c).state = State.RECORDING ∧
    (retro_run cfg (full_read_input b) c).frames_recorded =
      c.frames_recorded + mic_samples_per_frame cfg := by
  have hreq : mic_request cfg c = mic_samples_per_frame cfg := by
    unfold mic_request
    omega
  rw [retro_run_state, retro_run_fr, tick_state_RECORDING cfg _ c hstate rfl]
  unfold handle_record_state
  dsimp only [full_read_input]
  rw [hreq]
  rw [if_neg (not_lt.mpr (Int.natCast_nonneg _))]
  rw [if_neg (by simp [hb, Int.toNat_natCast]; omega)]
  dsimp only
  rw [Int.toNat_natCast]
  exact ⟨hstate, rfl⟩

lemma record_full_run (cfg : Config) (k : Nat) (c : Core)
    (hstate : c.state = State.RECORDING)
    (hk : c.frames_recorded + k * mic_samples_per_frame cfg < recording_buffer_length cfg) :
    (run_ticks cfg held_seq k c).state = State.RECORDING ∧
    (run_ticks cfg held_seq k c).frames_recorded =
      c.frames_recorded + k * mic_samples_per_frame cfg := by
  revert hk
  induction k with
  | zero =>
    intro _
    exact ⟨hstate, by simp [run_ticks]⟩
  | succ j ih =>
    intro hk
    rw [Nat.succ_mul] at hk
    obtain ⟨ihs, ihf⟩ := ih (by omega)
    have hstep := record_full_tick cfg true (run_ticks cfg held_seq j c) ihs
      (by rw [ihf]; omega) rfl
    refine ⟨?_, ?_⟩
    · rw [run_ticks]
      exact hstep.1
    · rw [run_ticks]
      rw [show held_seq j = full_read_input true from rfl]
      rw [hstep.2, ihf, Nat.succ_mul]
      ring

lemma record_full_tick_fill (cfg : Config) (b : Bool) (c : Core)
    (hstate : c.state = State.RECORDING)
    (hfill : recording_buffer_length cfg ≤ c.frames_recorded + mic_samples_per_frame cfg)
    (hF : c.frames_recorded ≤ recording_buffer_length cfg) :
    (retro_run cfg (full_read_input b) c).state = State.PLAYBACK ∧
    (retro_run cfg (full_read_input b) c).frames_recorded = recording_buffer_length cfg := by
  have hreq : mic_request cfg c = recording_buffer_length cfg - c.frames_recorded := by
    unfold mic_request
    omega
  rw [retro_run_state, retro_run_fr, tick_state_RECORDING cfg _ c hstate rfl]
  unfold handle_record_state
  dsimp only [full_read_input]
  rw [hreq]
  rw [if_neg (not_lt.mpr (Int.natCast_nonneg _))]
  rw [if_pos (by rw [Int.toNat_natCast]; omega)]
  dsimp only
  rw [Int.toNat_natCast]
  exact ⟨rfl, by omega⟩

/-- Claim C8 as stated fails on the code: with mic rate 44100 the recording
buffer holds 5 seconds = 220500 samples, so after 60 full-delivery ticks
frames_recorded is 44100, which is not the buffer length, and the next tick
with the button still held stays in RECORDING instead of moving to
PLAYBACK. -/
theorem C8_counterexample :
    (run_ticks cfg44100 held_seq 60 rec_start).frames_recorded = 44100 ∧
    (run_ticks cfg44100 held_seq 60 rec_start).frames_recorded ≠
      recording_buffer_length cfg44100 ∧
    (run_ticks cfg44100 held_seq 61 rec_start).state = State.RECORDING := by
  have h60 := record_full_run cfg44100 60 rec_start rfl (by decide)
  have h61 := record_full_run cfg44100 61 rec_start rfl (by decide)
  refine ⟨?_, ?_, h61.1⟩
  · rw [h60.2]
    decide
  · rw [h60.2]
    decide

/-- Amended claim C8: with mic rate 44100 and FPS 60, mic_samples_per_frame
is 735 and the recording buffer holds 220500 samples (5 seconds). After 60
full-delivery ticks frames_recorded is 44100 and the state is still
RECORDING (the buffer is not full); after 299 ticks frames_recorded is
219765, and the 300th tick, whatever the button state, fills the buffer
(frames_recorded = 220500) and transitions to PLAYBACK. -/
theorem C8_recording_fills_after_300 (c : Core)
    (h1 : c.state = State.RECORDING) (h2 : c.frames_recorded = 0) :
    mic_samples_per_frame cfg44100 = 735 ∧
    recording_buffer_length cfg44100 = 220500 ∧
    (run_ticks cfg44100 held_seq 60 c).state = State.RECORDING ∧
    (run_ticks cfg44100 held_seq 60 c).frames_recorded = 44100 ∧
    (run_ticks cfg44100 held_seq 299 c).frames_recorded = 219765 ∧
    (∀ b : Bool,
      (retro_run cfg44100 (full_read_input b)
        (run_ticks cfg44100 held_seq 299 c)).state = State.PLAYBACK ∧
      (retro_run cfg44100 (full_read_input b)
        (run_ticks cfg44100 held_seq 299 c)).frames_recorded = 220500) := by
  have h60 := record_full_run cfg44100 60 c h1 (by rw [h2]; decide)
  have h299 := record_full_run cfg44100 299 c h1 (by rw [h2]; decide)
  have hfr299 : (run_ticks cfg44100 held_seq 299 c).frames_recorded = 219765 := by
    rw [h299.2, h2]
    decide
  refine ⟨by decide, by decide, h60.1, ?_, hfr299, ?_⟩
  · rw [h60.2, h2]
    decide
  · intro b
    have hfill := record_full_tick_fill cfg44100 b (run_ticks cfg44100 held_seq 299 c)
      h299.1 (by rw [hfr299]; decide) (by rw [hfr299]; decide)
    refine ⟨hfill.1, ?_⟩
    rw [hfill.2]
    decide

/-! Concrete fixtures used by the witness theorems. -/

/-- Small configuration for concrete witnesses: rate 120, so
mic_samples_per_frame = 2, recording length 600, playback length 1200. -/
def cfg120 : Config := ⟨120⟩

/-- Input with the button released, a fully delivering microphone, and a
sink that accepts half of every offer. -/
def half_sink_input : TickInput :=
  { record_button := false
    mic_present := true
    set_mic_state_ok := true
    mic := { result := fun n => (n : Int), data := fun _ => 0 }
    audio_batch := fun _ n => n / 2
    audio_batch_present := true }

/-- Input whose microphone read faults (returns -1). -/
def fault_mic_input : TickInput :=
  { record_button := true
    mic_present := true
    set_mic_state_ok := true
    mic := { result := fun _ => -1, data := fun _ => 0 }
    audio_batch := fun _ _ => 0
    audio_batch_present := true }

/-- Concrete core in PLAYBACK with 4 recorded frames, none played. -/
def core_playback : Core := ⟨State.PLAYBACK, [], [], 4, 0, false, []⟩

/-- Concrete core in RECORDING with 5 recorded frames. -/
def core_recording : Core := ⟨State.RECORDING, [], [], 5, 0, true, []⟩

/-- Concrete core in IDLE with nonzero counters. -/
def core_idle : Core := ⟨State.IDLE, [], [], 3, 7, false, []⟩

/-- Witness for C1 at a concrete PLAYBACK tick with a half-accepting sink. -/
theorem C1_witness :
    core_playback.state = State.PLAYBACK ∧
    half_sink_input.audio_batch_present = true ∧
    (∀ d n, half_sink_input.audio_batch d n ≤ n) ∧
    core_playback.samples_played ≤ core_playback.frames_recorded * 2 ∧
    core_playback.frames_recorded * 2 ≤ playback_buffer_length cfg120 ∧
    ((retro_run cfg120 half_sink_input core_playback).samples_played =
      core_playback.samples_played +
        half_sink_input.audio_batch (playback_submission cfg120 core_playback)
          (playback_samples_to_play cfg120 core_playback) ∧
    ((retro_run cfg120 half_sink_input core_playback).state = State.FINISHED_PLAYBACK ↔
      (retro_run cfg120 half_sink_input core_playback).samples_played =
        core_playback.frames_recorded * 2)) :=
  ⟨rfl, rfl, fun _ n => Nat.div_le_self n 2, by decide, by decide,
    C1_playback_advance_by_accepted cfg120 half_sink_input core_playback rfl rfl
      (fun _ n => Nat.div_le_self n 2) (by decide) (by decide)⟩

/-- Witness for C2 at a concrete transition tick (button released). -/
theorem C2_witness :
    core_recording.state = State.RECORDING ∧
    half_sink_input.audio_batch_present = true ∧
    0 ≤ half_sink_input.mic.result (mic_request cfg120 core_recording) ∧
    half_sink_input.mic.result (mic_request cfg120 core_recording) ≤
      (mic_request cfg120 core_recording : Int) ∧
    core_recording.frames_recorded ≤ recording_buffer_length cfg120 ∧
    half_sink_input.record_button = false ∧
    ((retro_run cfg120 half_sink_input core_recording).state = State.PLAYBACK ∧
    (retro_run cfg120 half_sink_input core_recording).samples_played = 0 ∧
    (retro_run cfg120 half_sink_input core_recording).frames_recorded =
      core_recording.frames_recorded +
        (half_sink_input.mic.result (mic_request cfg120 core_recording)).toNat ∧
    (retro_run cfg120 half_sink_input core_recording).frames_recorded ≤
      recording_buffer_length cfg120 ∧
    (retro_run cfg120 half_sink_input core_recording).playback_buffer.length =
      playback_buffer_length cfg120 ∧
    (∀ i < (retro_run cfg120 half_sink_input core_recording).frames_recorded,
      (retro_run cfg120 half_sink_input core_recording).playback_buffer.getD (2 * i) 0 =
        (retro_run cfg120 half_sink_input core_recording).recording_buffer.getD i 0 ∧
      (retro_run cfg120 half_sink_input core_recording).playback_buffer.getD (2 * i + 1) 0 =
        (retro_run cfg120 half_sink_input core_recording).recording_buffer.getD i 0)) :=
  ⟨rfl, rfl, by decide, by decide, by decide, rfl,
    C2_roundtrip_stereo_duplication cfg120 half_sink_input core_recording rfl rfl
      (by decide) (by decide) (by decide) (Or.inl rfl)⟩

/-- Witness for C3 at a concrete RECORDING tick. -/
theorem C3_witness :
    (∀ n : Nat, half_sink_input.mic.result n ≤ (n : Int)) ∧
    (∀ d n, half_sink_input.audio_batch d n ≤ n) ∧
    core_recording.frames_recorded ≤ recording_buffer_length cfg120 ∧
    core_recording.samples_played ≤ playback_buffer_length cfg120 ∧
    ((retro_run cfg120 half_sink_input core_recording).frames_recorded ≤
      recording_buffer_length cfg120 ∧
    (retro_run cfg120 half_sink_input core_recording).samples_played ≤
      playback_buffer_length cfg120 ∧
    (core_recording.state = State.RECORDING →
      core_recording.frames_recorded ≤
        (retro_run cfg120 half_sink_input core_recording).frames_recorded)) :=
  ⟨fun n => le_refl (n : Int), fun _ n => Nat.div_le_self n 2, by decide, by decide,
    C3_counter_invariants cfg120 half_sink_input core_recording
      (fun n => le_refl (n : Int)) (fun _ n => Nat.div_le_self n 2) (by decide) (by decide)⟩

/-- Witness for C4 at a concrete faulting RECORDING tick. -/
theorem C4_witness :
    core_recording.state = State.RECORDING ∧
    fault_mic_input.audio_batch_present = true ∧
    fault_mic_input.mic.result (mic_request cfg120 core_recording) < 0 ∧
    ((retro_run cfg120 fault_mic_input core_recording).state = State.ERROR ∧
    (retro_run cfg120 fault_mic_input core_recording).mic_enabled = false ∧
    (∀ (seq : Nat → TickInput) (k : Nat),
      (run_ticks cfg120 seq k
        (retro_run cfg120 fault_mic_input core_recording)).state = State.ERROR) ∧
    (∀ (seq : Nat → TickInput) (k : Nat),
      (run_ticks cfg120 seq (k + 1)
        (retro_run cfg120 fault_mic_input core_recording)).frames_recorded = 0 ∧
      (run_ticks cfg120 seq (k + 1)
        (retro_run cfg120 fault_mic_input core_recording)).samples_played = 0)) :=
  ⟨rfl, rfl, by decide,
    C4_read_fault_sticky_error cfg120 fault_mic_input core_recording rfl rfl (by decide)⟩

/-- Witness for C5 at a concrete PLAYBACK tick. -/
theorem C5_witness :
    core_playback.state = State.PLAYBACK ∧
    half_sink_input.audio_batch_present = true ∧
    (((retro_run cfg120 half_sink_input core_playback).state = State.FINISHED_PLAYBACK ↔
      playback_buffer_length cfg120 ≤
        (retro_run cfg120 half_sink_input core_playback).samples_played ∨
      (retro_run cfg120 half_sink_input core_playback).frames_recorded * 2 ≤
        (retro_run cfg120 half_sink_input core_playback).samples_played) ∧
    ((retro_run cfg120 half_sink_input core_playback).state ≠ State.FINISHED_PLAYBACK →
      (retro_run cfg120 half_sink_input core_playback).state = State.PLAYBACK)) :=
  ⟨rfl, rfl, C5_playback_exit_condition cfg120 half_sink_input core_playback rfl rfl⟩

/-- Witness for C6 at a concrete IDLE tick with button held and the
microphone enabling successfully. -/
theorem C6_witness :
    core_idle.state = State.IDLE ∧
    (full_read_input true).mic_present = true ∧
    (full_read_input true).record_button = true ∧
    ((retro_run cfg120 (full_read_input true) core_idle).frames_recorded = 0 ∧
    (retro_run cfg120 (full_read_input true) core_idle).samples_played = 0 ∧
    ((full_read_input true).set_mic_state_ok = true →
      (retro_run cfg120 (full_read_input true) core_idle).state = State.RECORDING) ∧
    ((full_read_input true).set_mic_state_ok = false →
      (retro_run cfg120 (full_read_input true) core_idle).state = State.ERROR)) :=
  ⟨rfl, rfl, rfl,
    C6_idle_start_recording cfg120 (full_read_input true) core_idle rfl rfl rfl⟩

/-- Witness for the amended C7 at a concrete PLAYBACK tick. -/
theorem C7_witness :
    core_playback.state = State.PLAYBACK ∧
    half_sink_input.audio_batch_present = true ∧
    (playback_samples_to_play cfg120 core_playback =
      min (playback_samples_left cfg120 core_playback) (mic_samples_per_frame cfg120) ∧
    playback_submission cfg120 core_playback =
      (core_playback.playback_buffer.drop core_playback.samples_played).take
        (playback_samples_to_play cfg120 core_playback) ∧
    (retro_run cfg120 half_sink_input core_playback).samples_played =
      core_playback.samples_played +
        half_sink_input.audio_batch (playback_submission cfg120 core_playback)
          (playback_samples_to_play cfg120 core_playback) ∧
    (∀ fr sp : Nat, part000_frames_left fr sp =
      min (min (fr * 2) 441000 - sp) (2 * 735))) :=
  ⟨rfl, rfl, C7_playback_offer_cap cfg120 half_sink_input core_playback rfl rfl⟩

/-- Witness for the amended C8 starting from the concrete session start. -/
theorem C8_witness :
    rec_start.state = State.RECORDING ∧
    rec_start.frames_recorded = 0 ∧
    (mic_samples_per_frame cfg44100 = 735 ∧
    recording_buffer_length cfg44100 = 220500 ∧
    (run_ticks cfg44100 held_seq 60 rec_start).state = State.RECORDING ∧
    (run_ticks cfg44100 held_seq 60 rec_start).frames_recorded = 44100 ∧
    (run_ticks cfg44100 held_seq 299 rec_start).frames_recorded = 219765 ∧
    (∀ b : Bool,
      (retro_run cfg44100 (full_read_input b)
        (run_ticks cfg44100 held_seq 299 rec_start)).state = State.PLAYBACK ∧
      (retro_run cfg44100 (full_read_input b)
        (run_ticks cfg44100 held_seq 299 rec_start)).frames_recorded = 220500)) :=
  ⟨rfl, rfl, C8_recording_fills_after_300 rec_start rfl rfl⟩

/-- Witness for C9 at concrete counters and framebuffers. -/
theorem C9_witness :
    render cfg120 1 2 (render cfg120 1 2 [3, 4, 5]) = render cfg120 1 2 [3, 4, 5] ∧
    render cfg120 1 2 [7, 8, 9] = render cfg120 1 2 [3, 4, 5] :=
  ⟨(C9_render_pure cfg120 1 2 [3, 4, 5]).1,
    (C9_render_pure cfg120 1 2 [3, 4, 5]).2 [7, 8, 9] rfl⟩

/-- Witness for C10 at a concrete IDLE tick with the button released. -/
theorem C10_witness :
    core_idle.state = State.IDLE ∧
    half_sink_input.record_button = false ∧
    ((retro_run cfg120 half_sink_input core_idle).state = State.IDLE ∧
    (retro_run cfg120 half_sink_input core_idle).frames_recorded =
      core_idle.frames_recorded ∧
    (retro_run cfg120 half_sink_input core_idle).samples_played =
      core_idle.samples_played ∧
    (retro_run cfg120 half_sink_input core_idle).recording_buffer =
      core_idle.recording_buffer ∧
    (retro_run cfg120 half_sink_input core_idle).playback_buffer =
      core_idle.playback_buffer ∧
    (retro_run cfg120 half_sink_input core_idle).mic_enabled = core_idle.mic_enabled ∧
    (retro_run cfg120 half_sink_input core_idle).frame_buf =
      render cfg120 core_idle.frames_recorded core_idle.samples_played
        core_idle.frame_buf) :=
  ⟨rfl, rfl,
    C10_idle_tick_frame_only cfg120 half_sink_input core_idle rfl (Or.inr rfl)⟩

end AudioRec
